import Mathlib

/-!
Verification of the Identity & Sensitive-Data Protection core of the
capi-backend repository.

The development shallowly embeds the relevant source functions:

* src/utils/encryption.js — encrypt / decrypt / hashField (Field Codec),
  modelled at byte level (a stored string is its list of character codes,
  the AES-256-CBC block cipher of the Node crypto library is an explicit
  parameter with its library round-trip guarantee as a hypothesis);
* the user pre-save hook and toJSON transform of src/models/Invoice.js,
  the supplier pre-save hook (src/unnamed/part_005), the customer toJSON
  transform (src/models/Customer.js);
* the mongoose and prisma login handlers, the PUT /api/users and
  POST customers field handling, and the cakto webhook handlers of
  src/server.js.

String-level entity models take the imported crypto helpers
(encrypt, hashField, bcrypt.hash, bcrypt.compare) as function parameters,
exactly as the handlers import them.
-/

namespace Capi

/-- A byte sequence; each element is a byte value 0–255. Stored strings
(the IV:CIPHERTEXT format) are modelled as their character-code lists. -/
abbrev Bytes := List Nat

/-- Lower-case hex character code of one nibble, as produced by
Buffer.toString with hex encoding. -/
def nibbleToHex (n : Nat) : Nat := if n < 10 then 48 + n else 87 + n

/-- Hex encoding of a byte list: two hex character codes per byte. -/
def hexEncode : Bytes → Bytes
  | [] => []
  | b :: bs => nibbleToHex (b / 16) :: nibbleToHex (b % 16) :: hexEncode bs

/-- Numeric value of one hex character code; none when the character is
not a hex digit. -/
def hexDigitVal (c : Nat) : Option Nat :=
  if 48 ≤ c ∧ c ≤ 57 then some (c - 48)
  else if 97 ≤ c ∧ c ≤ 102 then some (c - 87)
  else none

/-- Hex decoding (Buffer.from with hex encoding). Malformed input is
reported as none; in the source a malformed buffer makes the decipher
call throw, which decrypt catches. -/
def hexDecode : Bytes → Option Bytes
  | [] => some []
  | [_] => none
  | a :: b :: rest =>
    match hexDigitVal a, hexDigitVal b, hexDecode rest with
    | some hi, some lo, some bs => some ((16 * hi + lo) :: bs)
    | _, _, _ => none

/-- List analogue of the split on the character code 58, the separator
in the IV:CIPHERTEXT format of encryption.js. -/
def splitOnColon : Bytes → List Bytes
  | [] => [[]]
  | c :: rest =>
    if c = 58 then [] :: splitOnColon rest
    else
      match splitOnColon rest with
      | [] => [[c]]
      | h :: t => (c :: h) :: t

/-- List analogue of Array.prototype.join with the separator 58. -/
def joinColon : List Bytes → Bytes
  | [] => []
  | [x] => x
  | x :: xs => x ++ 58 :: joinColon xs

/-- The AES-256-CBC cipher used through crypto.createCipheriv /
crypto.createDecipheriv, abstracted: enc key iv plain gives the
ciphertext bytes, dec key iv cipher gives the plaintext bytes or none
when the library call throws (wrong key, bad IV length, bad padding). -/
structure Cipher where
  enc : Bytes → Bytes → Bytes → Bytes
  dec : Bytes → Bytes → Bytes → Option Bytes

/-- encrypt from src/utils/encryption.js (lines 17–24): empty input is
returned unchanged, otherwise a fresh IV is used and the result is
hex(iv) ++ ":" ++ hex(cipher). The IV is a parameter here (the source
draws it from crypto.randomBytes per call). -/
def encrypt (C : Cipher) (key iv text : Bytes) : Bytes :=
  if text = [] then text
  else hexEncode iv ++ 58 :: hexEncode (C.enc key iv text)

/-- decrypt from src/utils/encryption.js (lines 29–46): empty input and
input without the separator are returned unchanged (legacy passthrough);
the parsed IV and ciphertext are deciphered, and any failure returns the
original input (the catch branch). -/
def decrypt (C : Cipher) (key : Bytes) (text : Bytes) : Bytes :=
  if text = [] then text
  else if 58 ∉ text then text
  else
    match splitOnColon text with
    | [] => text
    | ivHex :: rest =>
      match hexDecode ivHex, hexDecode (joinColon rest) with
      | some iv, some ct =>
        match C.dec key iv ct with
        | some plain => plain
        | none => text
      | _, _ => text

theorem nibbleToHex_ne_colon (n : Nat) : nibbleToHex n ≠ 58 := by
  unfold nibbleToHex
  split <;> omega

theorem hexDigitVal_nibbleToHex (n : Nat) (h : n < 16) :
    hexDigitVal (nibbleToHex n) = some n := by
  unfold nibbleToHex hexDigitVal
  by_cases h10 : n < 10
  · rw [if_pos h10, if_pos (by omega)]
    congr 1
    omega
  · rw [if_neg h10, if_neg (by omega), if_pos (by omega)]
    congr 1
    omega

theorem colon_not_mem_hexEncode (bs : Bytes) : 58 ∉ hexEncode bs := by
  induction bs with
  | nil => simp [hexEncode]
  | cons b rest ih =>
    simp only [hexEncode, List.mem_cons, not_or]
    exact ⟨fun h => nibbleToHex_ne_colon _ h.symm,
           fun h => nibbleToHex_ne_colon _ h.symm, ih⟩

theorem hexDecode_hexEncode (bs : Bytes) (h : ∀ b ∈ bs, b < 256) :
    hexDecode (hexEncode bs) = some bs := by
  induction bs with
  | nil => simp [hexEncode, hexDecode]
  | cons b rest ih =>
    have hb : b < 256 := h b (List.mem_cons_self _ _)
    have hrest : ∀ x ∈ rest, x < 256 := fun x hx => h x (List.mem_cons_of_mem _ hx)
    have hdiv : b / 16 < 16 := by omega
    have hmod : b % 16 < 16 := by omega
    simp only [hexEncode, hexDecode, hexDigitVal_nibbleToHex _ hdiv,
      hexDigitVal_nibbleToHex _ hmod, ih hrest]
    congr 2
    omega

theorem splitOnColon_no_colon (xs : Bytes) (h : 58 ∉ xs) :
    splitOnColon xs = [xs] := by
  induction xs with
  | nil => rfl
  | cons c rest ih =>
    have hc : c ≠ 58 := fun hc => h (hc ▸ List.mem_cons_self _ _)
    have hrest : 58 ∉ rest := fun hm => h (List.mem_cons_of_mem _ hm)
    simp only [splitOnColon, if_neg hc, ih hrest]

theorem splitOnColon_append (xs ys : Bytes) (h : 58 ∉ xs) :
    splitOnColon (xs ++ 58 :: ys) = xs :: splitOnColon ys := by
  induction xs with
  | nil => simp [splitOnColon]
  | cons c rest ih =>
    have hc : c ≠ 58 := fun hc => h (hc ▸ List.mem_cons_self _ _)
    have hrest : 58 ∉ rest := fun hm => h (List.mem_cons_of_mem _ hm)
    simp only [List.cons_append, splitOnColon, if_neg hc, List.append_eq, ih hrest]

/-- C8: for every plaintext, decrypting the hex(iv):hex(ciphertext)
string produced by encrypt with the same process-wide key returns the
original plaintext, given the block cipher round-trip guarantee of the
crypto library and that cipher and IV are byte sequences. -/
theorem decrypt_encrypt (C : Cipher) (key iv text : Bytes)
    (hiv : ∀ b ∈ iv, b < 256)
    (hct : ∀ b ∈ C.enc key iv text, b < 256)
    (hdec : C.dec key iv (C.enc key iv text) = some text) :
    decrypt C key (encrypt C key iv text) = text := by
  by_cases htext : text = []
  · simp [encrypt, decrypt, htext]
  · have henc : encrypt C key iv text
        = hexEncode iv ++ 58 :: hexEncode (C.enc key iv text) := by
      simp [encrypt, htext]
    have hmem : 58 ∈ encrypt C key iv text := by
      rw [henc]
      exact List.mem_append_right _ (List.mem_cons_self _ _)
    have hne : encrypt C key iv text ≠ [] := by
      intro hnil
      rw [hnil] at hmem
      exact (List.not_mem_nil _) hmem
    unfold decrypt
    rw [if_neg hne, if_neg (by simpa using hmem), henc,
      splitOnColon_append _ _ (colon_not_mem_hexEncode iv),
      splitOnColon_no_colon _ (colon_not_mem_hexEncode _)]
    simp only [joinColon, hexDecode_hexEncode iv hiv, hexDecode_hexEncode _ hct, hdec]

/-- A concrete executable cipher used to instantiate the abstract block
cipher in witnesses: shifts every byte by one modulo 256. -/
def shiftCipher : Cipher where
  enc := fun _ _ p => p.map (fun b => (b + 1) % 256)
  dec := fun _ _ c => some (c.map (fun b => (b + 255) % 256))

theorem decrypt_encrypt_witness :
    decrypt shiftCipher [7] (encrypt shiftCipher [7] [0, 255] [104, 105]) = [104, 105] :=
  decrypt_encrypt shiftCipher [7] [0, 255] [104, 105] (by decide) (by decide) (by decide)

/-! ### Entity models

String-level models of the user, customer and supplier documents and of
the handlers that write or serialize them. Columns not touched by the
claims (name, role, stores, avatar, timestamps) are omitted. A String
field with value "" models an absent/falsy value, matching the
truthiness tests of the source. Timestamps are Nat milliseconds. -/

/-- JS String.prototype.includes of the separator character, over the
character list of the string. -/
def hasColon (s : String) : Bool := s.data.any (fun c => c == ':')

/-- JS String.prototype.startsWith of the bcrypt prefix "$2": the first
two characters are the dollar sign and the digit 2. -/
def startsDollar2 (s : String) : Bool :=
  match s.data with
  | c1 :: c2 :: _ => c1 == '$' && c2 == '2'
  | _ => false

/-- One entry of the embedded invoices array of the mongoose user schema
(src/models/Invoice.js lines 93–100). -/
structure InvoiceEntry where
  id : String
  date : Nat
  amount : Nat
  status : String
  method : String
  url : String
  deriving Repr, DecidableEq

/-- The user document (user schema of src/models/Invoice.js lines
43–101 / prisma user table), restricted to the fields the claims are
about. -/
structure UserDoc where
  email : String
  password : String
  phone : String
  phoneHash : String
  taxId : String
  taxIdHash : String
  subscriptionStatus : String
  trialEndsAt : Option Nat
  nextBillingAt : Option Nat
  invoices : List InvoiceEntry
  deriving Repr, DecidableEq

/-- Step 1 of the user pre-save hook (src/models/Invoice.js lines
106–112): hash the modified password unless it already starts with
"$2". bc stands for bcrypt.hash with cost 10, mPwd for
the isModified flag of the password field. -/
def preSavePassword (bc : String → String) (mPwd : Bool) (u : UserDoc) : UserDoc :=
  if mPwd && !(startsDollar2 u.password) then
    { u with password := bc u.password } else u

/-- Step 2 of the user pre-save hook (src/models/Invoice.js lines
114–120): for a modified, non-empty phone without the separator
character, store the blind index of the plaintext and the ciphertext. -/
def preSavePhone (enc hash : String → String) (mPhone : Bool) (u : UserDoc) : UserDoc :=
  if mPhone && u.phone != "" && !(hasColon u.phone) then
    { u with phoneHash := hash u.phone, phone := enc u.phone } else u

/-- Step 3 of the user pre-save hook (src/models/Invoice.js lines
122–128): same for taxId. -/
def preSaveTaxId (enc hash : String → String) (mTaxId : Bool) (u : UserDoc) : UserDoc :=
  if mTaxId && u.taxId != "" && !(hasColon u.taxId) then
    { u with taxIdHash := hash u.taxId, taxId := enc u.taxId } else u

/-- The pre-save hook of the user schema (src/models/Invoice.js lines
105–131): the three steps in source order. bc, enc, hash stand for
bcrypt.hash, encrypt, hashField; mPwd, mPhone, mTaxId for the
isModified flags. -/
def userPreSave (bc enc hash : String → String) (mPwd mPhone mTaxId : Bool)
    (u : UserDoc) : UserDoc :=
  preSaveTaxId enc hash mTaxId (preSavePhone enc hash mPhone (preSavePassword bc mPwd u))

/-- The supplier document of src/unnamed/part_005, restricted to the
encrypted phone and its blind index. -/
structure SupplierDoc where
  phone : String
  phoneHash : String
  deriving Repr, DecidableEq

/-- The supplier pre-save hook (src/unnamed/part_005 lines 17–25). -/
def supplierPreSave (enc hash : String → String) (mPhone : Bool)
    (s : SupplierDoc) : SupplierDoc :=
  if mPhone && s.phone != "" && !(hasColon s.phone) then
    { s with phoneHash := hash s.phone, phone := enc s.phone } else s

/-- The trial-expiry check of the mongoose login (src/server.js lines
1145–1152): a TRIAL account with a set trialEndsAt strictly in the past
is flipped to PENDING; nothing else changes. -/
def trialCheck (now : Nat) (u : UserDoc) : UserDoc :=
  match u.trialEndsAt with
  | some t =>
    if u.subscriptionStatus == "TRIAL" && decide (now > t) then
      { u with subscriptionStatus := "PENDING" } else u
  | none => u

/-- The mongoose login handler (src/server.js lines 1112–1162), given
the user found by email. Stored credentials starting with "$2" are
compared with bcrypt.compare; otherwise a direct string equality match
triggers the intended migration save. That save runs the pre-save hook
with the password path NOT marked as modified: mongoose marks a path
modified only when the assigned value differs from the currently stored
one (a deep-equality check inside its change tracking), and this branch
assigns the candidate that the strict-equality test just proved
identical to the stored value — so the hook skips hashing and the save
persists the document unchanged. The trial check runs only after a
successful match; a failed match returns 401 without touching the
document. -/
def mongooseLogin (bcCompare : String → String → Bool)
    (bc enc hash : String → String) (now : Nat) (password : String)
    (u : UserDoc) : Bool × UserDoc :=
  if startsDollar2 u.password then
    if bcCompare password u.password then (true, trialCheck now u)
    else (false, u)
  else if u.password == password then
    (true, trialCheck now (userPreSave bc enc hash false false false
      { u with password := password }))
  else (false, u)

/-- The prisma login handler (src/server.js lines 275–307), given the
user found by email: a bcrypt.compare against the stored credential and
nothing else — no legacy migration, no trial-expiry check, no document
change. -/
def prismaLogin (bcCompare : String → String → Bool) (password : String)
    (u : UserDoc) : Bool × UserDoc :=
  (bcCompare password u.password, u)

/-- Shape of a serialized user view. An Option field records whether the
key is present at all (none = deleted from the output). -/
structure UserView where
  password : Option String
  phoneHash : Option String
  taxIdHash : Option String
  phone : String
  taxId : String
  deriving Repr, DecidableEq

/-- The toJSON transform of the user schema (src/models/Invoice.js lines
140–154): password and both blind indexes are deleted, phone and taxId
are decrypted when present. dec stands for decrypt. -/
def userToJSON (dec : String → String) (u : UserDoc) : UserView :=
  { password := none
    phoneHash := none
    taxIdHash := none
    phone := if u.phone != "" then dec u.phone else u.phone
    taxId := if u.taxId != "" then dec u.taxId else u.taxId }

/-- The customer document (src/models/Customer.js), restricted to the
encrypted phone and its blind index. -/
structure CustomerDoc where
  phone : String
  phoneHash : String
  deriving Repr, DecidableEq

/-- Shape of a serialized customer view. -/
structure CustomerView where
  phoneHash : Option String
  phone : String
  deriving Repr, DecidableEq

/-- The customer toJSON transform (src/models/Customer.js lines 43–59):
the blind index is deleted, phone is decrypted when present. -/
def customerToJSON (dec : String → String) (c : CustomerDoc) : CustomerView :=
  { phoneHash := none
    phone := if c.phone != "" then dec c.phone else c.phone }

/-- The response data of the prisma login (src/server.js lines 296–301):
the spread of the stored record plus the token, so every stored column —
password hash, blind indexes, ciphertext phone and taxId — is included
verbatim. -/
def prismaLoginData (u : UserDoc) : UserView :=
  { password := some u.password
    phoneHash := some u.phoneHash
    taxIdHash := some u.taxIdHash
    phone := u.phone
    taxId := u.taxId }

/-- The sensitive fields of a PUT or POST request body. -/
structure UpdateBody where
  phone : String
  phoneHash : String
  taxId : String
  taxIdHash : String
  deriving Repr, DecidableEq

/-- The sensitive-field handling of PUT /api/users/:userId
(src/server.js lines 347–365): updates.phone is overwritten with the
ciphertext first, then updates.phoneHash is computed from the new value,
so the stored blind index is the hash of the ciphertext; same for
taxId. -/
def putUserBody (enc hash : String → String) (b : UpdateBody) : UpdateBody :=
  let b1 := if b.phone != "" then
      { b with phone := enc b.phone, phoneHash := hash (enc b.phone) } else b
  if b1.taxId != "" then
      { b1 with taxId := enc b1.taxId, taxIdHash := hash (enc b1.taxId) } else b1

/-- The phone handling of POST /api/stores/:storeId/customers
(src/server.js lines 538–554): same overwrite-then-hash order as the
user update. -/
def createCustomerBody (enc hash : String → String) (c : CustomerDoc) : CustomerDoc :=
  if c.phone != "" then
    { c with phone := enc c.phone, phoneHash := hash (enc c.phone) } else c

/-- The sensitive fields written by POST /api/auth/google-register
(src/server.js lines 206–225): ciphertext of the plaintext and hash of
the plaintext, independently. -/
def googleRegisterFields (enc hash : String → String) (phone taxId : String) :
    UpdateBody :=
  { phone := if phone != "" then enc phone else ""
    taxId := if taxId != "" then enc taxId else ""
    phoneHash := if phone != "" then hash phone else ""
    taxIdHash := if taxId != "" then hash taxId else "" }

/-! ### Subscription lifecycle: registration and webhook handlers -/

/-- Two days in milliseconds; the mongoose registration computes the
trial end with setDate(getDate() + 2), modelled with fixed-length
days. -/
def twoDaysMs : Nat := 172800000

/-- Thirty days in milliseconds; the mongoose webhook computes the next
billing date with setDate(getDate() + 30), modelled with fixed-length
days. -/
def thirtyDaysMs : Nat := 2592000000

/-- User creation in POST /api/users (mongoose, src/server.js lines
1016–1036): TRIAL status with trialEndsAt = now + 2 days, then save, so
the pre-save hook hashes the password and encrypts the sensitive
fields. -/
def mongooseRegister (bc enc hash : String → String) (now : Nat)
    (email password phone taxId : String) : UserDoc :=
  userPreSave bc enc hash true true true
    { email := email, password := password, phone := phone, phoneHash := ""
      taxId := taxId, taxIdHash := "", subscriptionStatus := "TRIAL"
      trialEndsAt := some (now + twoDaysMs), nextBillingAt := none
      invoices := [] }

/-- Outcome of a webhook request: the HTTP status and body collapsed to
ok (2xx success) or err (explicit 4xx/5xx error with its code). -/
inductive WebhookResult where
  | ok : String → WebhookResult
  | err : Nat → String → WebhookResult
  deriving Repr, DecidableEq

/-- The fields of a cakto webhook payload read by the prisma handlers
(src/server.js line 622): paymentMethod models
metadata?.payment_method, with "" for absent. -/
structure CaktoEvent where
  event : String
  payment_id : String
  customer_email : String
  amount : Nat
  status : String
  paymentMethod : String
  deriving Repr, DecidableEq

/-- One row of the prisma invoice table (invoice.create calls of
src/server.js); the owning user is identified by email here, standing
for user.id. -/
structure PrismaInvoice where
  userId : String
  date : Nat
  amount : Nat
  status : String
  method : String
  url : String
  deriving Repr, DecidableEq

/-- The persistent state the prisma webhook handlers touch: the user
table and the invoice table. -/
structure PrismaState where
  users : List UserDoc
  invoices : List PrismaInvoice
  deriving Repr, DecidableEq

/-- findUnique / findOne on the email column. -/
def findByEmail (email : String) (us : List UserDoc) : Option UserDoc :=
  us.find? (fun u => u.email == email)

/-- update on the record matched by email. -/
def updateByEmail (email : String) (f : UserDoc → UserDoc)
    (us : List UserDoc) : List UserDoc :=
  us.map (fun u => if u.email == email then f u else u)

/-- The unified prisma webhook POST /api/webhooks/cakto (src/server.js
lines 620–704). addMonth models Date.setMonth(getMonth() + 1) applied to
now. The approved branch sets ACTIVE and the next billing date — leaving
trialEndsAt untouched — and appends an invoice row unconditionally: no
already-ACTIVE or payment-id check. Unknown event types still answer
success. -/
def caktoUnified (addMonth : Nat → Nat) (now : Nat) (ev : CaktoEvent)
    (st : PrismaState) : WebhookResult × PrismaState :=
  match findByEmail ev.customer_email st.users with
  | none => (.err 404 "User not found", st)
  | some user =>
    let eventType := if ev.event != "" then ev.event else ev.status
    if eventType == "payment.approved" || eventType == "approved"
        || eventType == "paid" then
      let nb := addMonth now
      let users1 := updateByEmail user.email
        (fun u => { u with subscriptionStatus := "ACTIVE", nextBillingAt := some nb })
        st.users
      let inv : PrismaInvoice :=
        { userId := user.email, date := now, amount := ev.amount, status := "PAID"
          method := if ev.paymentMethod != "" then ev.paymentMethod else "PIX"
          url := "https://pay.cakto.com.br/invoice/" ++ ev.payment_id }
      (.ok "Webhook processed successfully",
       { users := users1, invoices := st.invoices ++ [inv] })
    else if eventType == "payment.pending" || eventType == "pending"
        || eventType == "waiting" then
      let users1 := updateByEmail user.email
        (fun u => { u with subscriptionStatus := "PENDING" }) st.users
      (.ok "Webhook processed successfully", { st with users := users1 })
    else if eventType == "payment.failed" || eventType == "payment.canceled"
        || eventType == "failed" || eventType == "canceled"
        || eventType == "refunded" then
      let users1 := updateByEmail user.email
        (fun u => { u with subscriptionStatus := "CANCELED" }) st.users
      (.ok "Webhook processed successfully", { st with users := users1 })
    else (.ok "Webhook processed successfully", st)

/-- The legacy POST /api/webhooks/cakto/payment-approved handler
(src/server.js lines 707–754): same approved logic as the unified
handler, again without idempotency check or trialEndsAt clearing. -/
def caktoPaymentApproved (addMonth : Nat → Nat) (now : Nat) (ev : CaktoEvent)
    (st : PrismaState) : WebhookResult × PrismaState :=
  match findByEmail ev.customer_email st.users with
  | none => (.err 404 "User not found", st)
  | some user =>
    let nb := addMonth now
    let users1 := updateByEmail user.email
      (fun u => { u with subscriptionStatus := "ACTIVE", nextBillingAt := some nb })
      st.users
    let inv : PrismaInvoice :=
      { userId := user.email, date := now, amount := ev.amount, status := "PAID"
        method := if ev.paymentMethod != "" then ev.paymentMethod else "PIX"
        url := "https://pay.cakto.com.br/invoice/" ++ ev.payment_id }
    (.ok "Payment processed successfully",
     { users := users1, invoices := st.invoices ++ [inv] })

/-- POST /api/webhooks/cakto/payment-pending (src/server.js lines
757–780): the user update is guarded by if (user); with no matching
account the handler falls through and still answers 200 success. -/
def caktoPaymentPending (ev : CaktoEvent) (st : PrismaState) :
    WebhookResult × PrismaState :=
  match findByEmail ev.customer_email st.users with
  | some user =>
    let users1 := updateByEmail user.email
      (fun u => { u with subscriptionStatus := "PENDING" }) st.users
    (.ok "Payment pending registered", { st with users := users1 })
  | none => (.ok "Payment pending registered", st)

/-- POST /api/webhooks/cakto/payment-failed (src/server.js lines
783–806): same if (user) guard; unknown emails get 200 success. -/
def caktoPaymentFailed (ev : CaktoEvent) (st : PrismaState) :
    WebhookResult × PrismaState :=
  match findByEmail ev.customer_email st.users with
  | some user =>
    let users1 := updateByEmail user.email
      (fun u => { u with subscriptionStatus := "CANCELED" }) st.users
    (.ok "Payment failure registered", { st with users := users1 })
  | none => (.ok "Payment failure registered", st)

/-- The fields of a cakto webhook payload read by the mongoose handler
(src/server.js lines 1607–1623): customerEmail and orderId model the
optional-chained extractions, with "" for absent; amount 0 models a
falsy amount (the source then defaults to 4990 cents). -/
structure MongoEvent where
  event : String
  customerEmail : String
  orderId : String
  amount : Nat
  deriving Repr, DecidableEq

/-- The mongoose webhook POST /api/webhooks/cakto (src/server.js lines
1603–1685). Approved purchases on an already-ACTIVE account are answered
with a 200 noop without any state change; otherwise the account is set
ACTIVE, trialEndsAt is cleared, nextBillingAt is set to now + 30 days
and one invoice (amount converted from cents, integer division) is
unshifted onto the embedded ledger. Non-approval events are only
logged. -/
def caktoMongoose (now : Nat) (ev : MongoEvent) (users : List UserDoc) :
    WebhookResult × List UserDoc :=
  if ev.event == "" then (.err 400 "Invalid webhook structure", users)
  else if ev.event == "purchase_approved" || ev.event == "purchase.approved"
      || ev.event == "order.approved" then
    if ev.customerEmail == "" then (.err 400 "Customer email not found", users)
    else
      match findByEmail ev.customerEmail users with
      | none => (.err 404 "User not found", users)
      | some user =>
        if user.subscriptionStatus == "ACTIVE" then (.ok "Already active", users)
        else
          let amount := if ev.amount != 0 then ev.amount else 4990
          let inv : InvoiceEntry :=
            { id := if ev.orderId != "" then ev.orderId else "CAKTO-" ++ toString now
              date := now, amount := amount / 100, status := "PAID"
              method := "CAKTO", url := "" }
          let users1 := updateByEmail user.email
            (fun u => { u with
              subscriptionStatus := "ACTIVE"
              trialEndsAt := none
              nextBillingAt := some (now + thirtyDaysMs)
              invoices := inv :: u.invoices }) users
          (.ok "Subscription activated", users1)
  else (.ok "received", users)

/-! ### Concrete instances used by witnesses and counterexamples

Executable stand-ins for the crypto helpers: encToy produces a
ciphertext-shaped string (contains the separator), hashToy a
deterministic digest-like string, bcToy a "$2"-prefixed hash with
bcCompareToy its matching verifier. -/

def encToy (s : String) : String := s ++ ":e"

def hashToy (s : String) : String := "h[" ++ s ++ "]"

def bcToy (s : String) : String := "$2b$" ++ s

def bcCompareToy (cand stored : String) : Bool := ("$2b$" ++ cand) == stored

/-- A TRIAL account with an expired-capable trial end, used as concrete
webhook input. -/
def aliceT : UserDoc :=
  { email := "alice@x.com", password := "$2b$pw", phone := "", phoneHash := ""
    taxId := "", taxIdHash := "", subscriptionStatus := "TRIAL"
    trialEndsAt := some 50, nextBillingAt := none, invoices := [] }

/-- A concrete approved payment event for the prisma handlers. -/
def approvedEv : CaktoEvent :=
  { event := "payment.approved", payment_id := "PAY1"
    customer_email := "alice@x.com", amount := 49, status := ""
    paymentMethod := "" }

/-- The same approved payment event in the mongoose payload shape. -/
def approvedMongoEv : MongoEvent :=
  { event := "purchase_approved", customerEmail := "alice@x.com"
    orderId := "PAY1", amount := 4990 }

/-! ### Helper lemmas -/

theorem preSavePassword_phone (bc : String → String) (mPwd : Bool) (u : UserDoc) :
    (preSavePassword bc mPwd u).phone = u.phone := by
  unfold preSavePassword; split <;> rfl

theorem preSavePassword_phoneHash (bc : String → String) (mPwd : Bool) (u : UserDoc) :
    (preSavePassword bc mPwd u).phoneHash = u.phoneHash := by
  unfold preSavePassword; split <;> rfl

theorem preSavePassword_taxId (bc : String → String) (mPwd : Bool) (u : UserDoc) :
    (preSavePassword bc mPwd u).taxId = u.taxId := by
  unfold preSavePassword; split <;> rfl

theorem preSavePassword_taxIdHash (bc : String → String) (mPwd : Bool) (u : UserDoc) :
    (preSavePassword bc mPwd u).taxIdHash = u.taxIdHash := by
  unfold preSavePassword; split <;> rfl

theorem preSavePhone_password (enc hash : String → String) (mPhone : Bool) (u : UserDoc) :
    (preSavePhone enc hash mPhone u).password = u.password := by
  unfold preSavePhone; split <;> rfl

theorem preSavePhone_taxId (enc hash : String → String) (mPhone : Bool) (u : UserDoc) :
    (preSavePhone enc hash mPhone u).taxId = u.taxId := by
  unfold preSavePhone; split <;> rfl

theorem preSavePhone_taxIdHash (enc hash : String → String) (mPhone : Bool) (u : UserDoc) :
    (preSavePhone enc hash mPhone u).taxIdHash = u.taxIdHash := by
  unfold preSavePhone; split <;> rfl

theorem preSaveTaxId_password (enc hash : String → String) (mTaxId : Bool) (u : UserDoc) :
    (preSaveTaxId enc hash mTaxId u).password = u.password := by
  unfold preSaveTaxId; split <;> rfl

theorem preSaveTaxId_phone (enc hash : String → String) (mTaxId : Bool) (u : UserDoc) :
    (preSaveTaxId enc hash mTaxId u).phone = u.phone := by
  unfold preSaveTaxId; split <;> rfl

theorem preSaveTaxId_phoneHash (enc hash : String → String) (mTaxId : Bool) (u : UserDoc) :
    (preSaveTaxId enc hash mTaxId u).phoneHash = u.phoneHash := by
  unfold preSaveTaxId; split <;> rfl

theorem preSavePassword_of_hashed (bc : String → String) (mPwd : Bool) (u : UserDoc)
    (h : startsDollar2 u.password = true) :
    preSavePassword bc mPwd u = u := by
  unfold preSavePassword; simp [h]

theorem preSavePassword_of_legacy (bc : String → String) (u : UserDoc)
    (h : startsDollar2 u.password = false) :
    preSavePassword bc true u = { u with password := bc u.password } := by
  unfold preSavePassword; simp [h]

theorem preSavePhone_of_colon (enc hash : String → String) (mPhone : Bool) (u : UserDoc)
    (h : hasColon u.phone = true) :
    preSavePhone enc hash mPhone u = u := by
  unfold preSavePhone; simp [h]

theorem preSavePhone_not_modified (enc hash : String → String) (u : UserDoc) :
    preSavePhone enc hash false u = u := by
  unfold preSavePhone; simp

theorem preSaveTaxId_of_colon (enc hash : String → String) (mTaxId : Bool) (u : UserDoc)
    (h : hasColon u.taxId = true) :
    preSaveTaxId enc hash mTaxId u = u := by
  unfold preSaveTaxId; simp [h]

theorem preSaveTaxId_not_modified (enc hash : String → String) (u : UserDoc) :
    preSaveTaxId enc hash false u = u := by
  unfold preSaveTaxId; simp

theorem preSavePhone_of_clean (enc hash : String → String) (u : UserDoc)
    (h1 : u.phone ≠ "") (h2 : hasColon u.phone = false) :
    preSavePhone enc hash true u = { u with phoneHash := hash u.phone, phone := enc u.phone } := by
  unfold preSavePhone; simp [h1, h2]

theorem trialCheck_password (now : Nat) (u : UserDoc) :
    (trialCheck now u).password = u.password := by
  unfold trialCheck
  cases u.trialEndsAt with
  | none => rfl
  | some t => dsimp only; split <;> rfl

theorem preSavePassword_not_modified (bc : String → String) (u : UserDoc) :
    preSavePassword bc false u = u := by
  unfold preSavePassword; simp

theorem preSavePassword_subscriptionStatus (bc : String → String) (mPwd : Bool) (u : UserDoc) :
    (preSavePassword bc mPwd u).subscriptionStatus = u.subscriptionStatus := by
  unfold preSavePassword; split <;> rfl

theorem preSavePhone_subscriptionStatus (enc hash : String → String) (mPhone : Bool) (u : UserDoc) :
    (preSavePhone enc hash mPhone u).subscriptionStatus = u.subscriptionStatus := by
  unfold preSavePhone; split <;> rfl

theorem preSaveTaxId_subscriptionStatus (enc hash : String → String) (mTaxId : Bool) (u : UserDoc) :
    (preSaveTaxId enc hash mTaxId u).subscriptionStatus = u.subscriptionStatus := by
  unfold preSaveTaxId; split <;> rfl

theorem preSavePassword_trialEndsAt (bc : String → String) (mPwd : Bool) (u : UserDoc) :
    (preSavePassword bc mPwd u).trialEndsAt = u.trialEndsAt := by
  unfold preSavePassword; split <;> rfl

theorem preSavePhone_trialEndsAt (enc hash : String → String) (mPhone : Bool) (u : UserDoc) :
    (preSavePhone enc hash mPhone u).trialEndsAt = u.trialEndsAt := by
  unfold preSavePhone; split <;> rfl

theorem preSaveTaxId_trialEndsAt (enc hash : String → String) (mTaxId : Bool) (u : UserDoc) :
    (preSaveTaxId enc hash mTaxId u).trialEndsAt = u.trialEndsAt := by
  unfold preSaveTaxId; split <;> rfl

/-! ### Claim theorems -/

/-- C10: a modified sensitive-field plaintext that contains the
separator character is skipped entirely by the encryption pre-save
hooks (to prevent double encryption): the value is persisted unencrypted
as given and the blind-index hash field is not computed or updated on
that write — for the user phone and taxId and the supplier phone. -/
theorem colon_plaintext_skipped (bc enc hash : String → String) (mPwd : Bool)
    (u : UserDoc) (s : SupplierDoc)
    (hup : hasColon u.phone = true) (hut : hasColon u.taxId = true)
    (hsp : hasColon s.phone = true) :
    (userPreSave bc enc hash mPwd true true u).phone = u.phone ∧
    (userPreSave bc enc hash mPwd true true u).phoneHash = u.phoneHash ∧
    (userPreSave bc enc hash mPwd true true u).taxId = u.taxId ∧
    (userPreSave bc enc hash mPwd true true u).taxIdHash = u.taxIdHash ∧
    (supplierPreSave enc hash true s).phone = s.phone ∧
    (supplierPreSave enc hash true s).phoneHash = s.phoneHash := by
  have hp : hasColon (preSavePassword bc mPwd u).phone = true := by
    rw [preSavePassword_phone]; exact hup
  have ht : hasColon (preSavePhone enc hash true (preSavePassword bc mPwd u)).taxId = true := by
    rw [preSavePhone_taxId, preSavePassword_taxId]; exact hut
  have hsup : supplierPreSave enc hash true s = s := by
    unfold supplierPreSave; simp [hsp]
  unfold userPreSave
  rw [preSaveTaxId_of_colon _ _ _ _ ht, preSavePhone_of_colon _ _ _ _ hp, hsup]
  exact ⟨preSavePassword_phone bc mPwd u, preSavePassword_phoneHash bc mPwd u,
    preSavePassword_taxId bc mPwd u, preSavePassword_taxIdHash bc mPwd u, rfl, rfl⟩

/-- A user document whose sensitive plaintexts contain the separator. -/
def uColon : UserDoc :=
  { email := "", password := "pw", phone := "11:22", phoneHash := "PH"
    taxId := "33:44", taxIdHash := "TH", subscriptionStatus := "FREE"
    trialEndsAt := none, nextBillingAt := none, invoices := [] }

/-- A supplier document whose phone plaintext contains the separator. -/
def sColon : SupplierDoc := { phone := "55:66", phoneHash := "SH" }

theorem colon_plaintext_skipped_witness :
    (userPreSave bcToy encToy hashToy true true true uColon).phone = uColon.phone ∧
    (userPreSave bcToy encToy hashToy true true true uColon).phoneHash = uColon.phoneHash ∧
    (userPreSave bcToy encToy hashToy true true true uColon).taxId = uColon.taxId ∧
    (userPreSave bcToy encToy hashToy true true true uColon).taxIdHash = uColon.taxIdHash ∧
    (supplierPreSave encToy hashToy true sColon).phone = sColon.phone ∧
    (supplierPreSave encToy hashToy true sColon).phoneHash = sColon.phoneHash :=
  colon_plaintext_skipped bcToy encToy hashToy true uColon sColon
    (by decide) (by decide) (by decide)

/-- C9: a password plaintext that already begins with "$2" is persisted
verbatim by the pre-save hook (the hook skips hashing anything with that
prefix), so such a user-chosen password is stored as given, and the
mongoose login then takes the bcrypt branch, comparing the candidate
with bcrypt against the raw stored value. -/
theorem dollar2_password_stored_verbatim (bcCompare : String → String → Bool)
    (bc enc hash : String → String) (mPwd mPhone mTaxId : Bool) (now : Nat)
    (cand : String) (u : UserDoc)
    (h : startsDollar2 u.password = true) :
    (userPreSave bc enc hash mPwd mPhone mTaxId u).password = u.password ∧
    (mongooseLogin bcCompare bc enc hash now cand u).1 = bcCompare cand u.password := by
  constructor
  · unfold userPreSave
    rw [preSaveTaxId_password, preSavePhone_password, preSavePassword_of_hashed _ _ _ h]
  · unfold mongooseLogin
    simp only [h, if_true]
    cases hb : bcCompare cand u.password <;> simp [hb]

/-- A user document whose stored password starts with "$2" but is raw
user input, not a bcrypt digest. -/
def uDollar2 : UserDoc :=
  { email := "", password := "$2mypassword", phone := "", phoneHash := ""
    taxId := "", taxIdHash := "", subscriptionStatus := "FREE"
    trialEndsAt := none, nextBillingAt := none, invoices := [] }

theorem dollar2_password_stored_verbatim_witness :
    (userPreSave bcToy encToy hashToy true true true uDollar2).password = uDollar2.password ∧
    (mongooseLogin bcCompareToy bcToy encToy hashToy 0 "x" uDollar2).1 =
      bcCompareToy "x" uDollar2.password :=
  dollar2_password_stored_verbatim bcCompareToy bcToy encToy hashToy true true true 0 "x"
    uDollar2 (by decide)

/-- A user document whose stored credential is the legacy plaintext
password. -/
def legacyU : UserDoc :=
  { email := "", password := "pw", phone := "", phoneHash := ""
    taxId := "", taxIdHash := "", subscriptionStatus := "FREE"
    trialEndsAt := none, nextBillingAt := none, invoices := [] }

/-- C6: the intended one-time legacy migration never happens. The
legacy branch matches by strict string equality and then assigns that
same value back, so mongoose never marks the password path modified,
the pre-save hook skips hashing, and the save persists the plaintext
unchanged: after a successful login with the matching legacy password,
the stored credential is still the plaintext (not "$2"-prefixed), and a
second login with the same password succeeds again through the same
plaintext-equality branch, still leaving the plaintext in place. -/
theorem legacy_migration_never_happens :
    (mongooseLogin bcCompareToy bcToy encToy hashToy 0 "pw" legacyU).1 = true ∧
    (mongooseLogin bcCompareToy bcToy encToy hashToy 0 "pw" legacyU).2.password = "pw" ∧
    startsDollar2
      ((mongooseLogin bcCompareToy bcToy encToy hashToy 0 "pw" legacyU).2.password) =
      false ∧
    (mongooseLogin bcCompareToy bcToy encToy hashToy 1 "pw"
      (mongooseLogin bcCompareToy bcToy encToy hashToy 0 "pw" legacyU).2).1 = true ∧
    (mongooseLogin bcCompareToy bcToy encToy hashToy 1 "pw"
      (mongooseLogin bcCompareToy bcToy encToy hashToy 0 "pw" legacyU).2).2.password =
      "pw" := by decide

/-- A TRIAL account, trial expiry at time 100, bcrypt-stored password. -/
def trialExpiredU : UserDoc :=
  { email := "t@x.com", password := "$2b$pw", phone := "", phoneHash := ""
    taxId := "", taxIdHash := "", subscriptionStatus := "TRIAL"
    trialEndsAt := some 100, nextBillingAt := none, invoices := [] }

/-- C5 counterexample: an authenticated (password-matching) prisma login
of a TRIAL account whose trial expiry (100) lies strictly in the past
leaves the account record completely unchanged — the status stays TRIAL
at every access time, because the prisma login handler performs no
trial-expiry check at all. -/
theorem prisma_login_no_trial_flip :
    (prismaLogin bcCompareToy "pw" trialExpiredU).1 = true ∧
    (prismaLogin bcCompareToy "pw" trialExpiredU).2 = trialExpiredU ∧
    (prismaLogin bcCompareToy "pw" trialExpiredU).2.subscriptionStatus = "TRIAL" :=
  ⟨by decide, rfl, rfl⟩

/-- C5 amended: on the mongoose login path, a successful login of a
TRIAL account with a set trial expiry flips the status to PENDING
exactly when the login time is strictly after the expiry, before the
request continues, and changes nothing when the login happens at or
before the expiry; registration sets TRIAL with expiry = creation + 2
days. The prisma login and non-login authenticated accesses perform no
such check. -/
theorem mongoose_login_trial_flip (bcCompare : String → String → Bool)
    (bc enc hash : String → String) (now t : Nat) (cand : String) (u : UserDoc)
    (hst : u.subscriptionStatus = "TRIAL") (hte : u.trialEndsAt = some t)
    (hpw : startsDollar2 u.password = true)
    (hcmp : bcCompare cand u.password = true) :
    (mongooseLogin bcCompare bc enc hash now cand u).1 = true ∧
    (t < now →
      (mongooseLogin bcCompare bc enc hash now cand u).2 =
        { u with subscriptionStatus := "PENDING" }) ∧
    (now ≤ t → (mongooseLogin bcCompare bc enc hash now cand u).2 = u) ∧
    (∀ now0 e pw ph tx,
      (mongooseRegister bc enc hash now0 e pw ph tx).subscriptionStatus = "TRIAL" ∧
      (mongooseRegister bc enc hash now0 e pw ph tx).trialEndsAt =
        some (now0 + twoDaysMs)) := by
  have key : mongooseLogin bcCompare bc enc hash now cand u = (true, trialCheck now u) := by
    unfold mongooseLogin
    rw [hpw, if_pos rfl, hcmp, if_pos rfl]
  rw [key]
  refine ⟨rfl, ?_, ?_, ?_⟩
  · intro hlt
    unfold trialCheck
    rw [hte]
    simp [hst, hlt]
  · intro hle
    unfold trialCheck
    rw [hte]
    simp [hst, show ¬ (now > t) from by omega]
  · intro now0 e pw ph tx
    unfold mongooseRegister userPreSave
    rw [preSaveTaxId_subscriptionStatus, preSavePhone_subscriptionStatus,
      preSavePassword_subscriptionStatus, preSaveTaxId_trialEndsAt,
      preSavePhone_trialEndsAt, preSavePassword_trialEndsAt]
    exact ⟨rfl, rfl⟩

theorem mongoose_login_trial_flip_witness :
    (mongooseLogin bcCompareToy bcToy encToy hashToy 400 "pw" trialExpiredU).2 =
      { trialExpiredU with subscriptionStatus := "PENDING" } := by
  have h := mongoose_login_trial_flip bcCompareToy bcToy encToy hashToy 400 100 "pw"
    trialExpiredU rfl rfl (by decide) (by decide)
  exact h.2.1 (by decide)

/-- C1: the prisma PUT /api/users and POST customers handlers overwrite
the request field with the ciphertext before computing the blind index,
so they store hash of the ciphertext, not hash of the plaintext — while
the user pre-save hook and the google-register path store hash of the
plaintext. Since every encryption uses a fresh random IV, the
ciphertext hash is a different digest on every write and never matches
an index computed from the plaintext. -/
theorem blind_index_hashed_after_encryption (enc hash bc : String → String)
    (b : UpdateBody) (c : CustomerDoc) (u : UserDoc)
    (hbp : b.phone ≠ "") (hbt : b.taxId ≠ "") (hcp : c.phone ≠ "")
    (hu1 : u.phone ≠ "") (hu2 : hasColon u.phone = false) :
    (putUserBody enc hash b).phoneHash = hash (enc b.phone) ∧
    (putUserBody enc hash b).taxIdHash = hash (enc b.taxId) ∧
    (createCustomerBody enc hash c).phoneHash = hash (enc c.phone) ∧
    (userPreSave bc enc hash false true false u).phoneHash = hash u.phone ∧
    (googleRegisterFields enc hash u.phone u.taxId).phoneHash = hash u.phone := by
  refine ⟨?_, ?_, ?_, ?_, ?_⟩
  · simp [putUserBody, hbp, hbt]
  · simp [putUserBody, hbp, hbt]
  · simp [createCustomerBody, hcp]
  · unfold userPreSave
    rw [preSaveTaxId_phoneHash, preSavePassword_not_modified,
      preSavePhone_of_clean _ _ _ hu1 hu2]
  · simp [googleRegisterFields, hu1]

/-- A concrete update body with plaintext phone and taxId. -/
def putBodyW : UpdateBody :=
  { phone := "11999990000", phoneHash := "", taxId := "12345678900", taxIdHash := "" }

/-- A concrete customer-create body with plaintext phone. -/
def custW : CustomerDoc := { phone := "11988887777", phoneHash := "" }

/-- A concrete user document with clean plaintext phone. -/
def uCleanW : UserDoc :=
  { email := "", password := "pw", phone := "11977776666", phoneHash := ""
    taxId := "", taxIdHash := "", subscriptionStatus := "FREE"
    trialEndsAt := none, nextBillingAt := none, invoices := [] }

theorem blind_index_hashed_after_encryption_witness :
    (putUserBody encToy hashToy putBodyW).phoneHash = hashToy (encToy putBodyW.phone) ∧
    (putUserBody encToy hashToy putBodyW).taxIdHash = hashToy (encToy putBodyW.taxId) ∧
    (createCustomerBody encToy hashToy custW).phoneHash = hashToy (encToy custW.phone) ∧
    (userPreSave bcToy encToy hashToy false true false uCleanW).phoneHash =
      hashToy uCleanW.phone ∧
    (googleRegisterFields encToy hashToy uCleanW.phone uCleanW.taxId).phoneHash =
      hashToy uCleanW.phone :=
  blind_index_hashed_after_encryption encToy hashToy bcToy putBodyW custW uCleanW
    (by decide) (by decide) (by decide) (by decide) (by decide)

/-- A user document with ciphertext-shaped sensitive fields and stored
blind indexes, as read back by a handler. -/
def leakU : UserDoc :=
  { email := "bob@x.com", password := "$2b$10$sekret", phone := "aabb:ccdd"
    phoneHash := "ph123", taxId := "eeff:0011", taxIdHash := "th456"
    subscriptionStatus := "ACTIVE", trialEndsAt := none
    nextBillingAt := some 5, invoices := [] }

/-- C3: the mongoose user and customer serializations do delete the
password and the blind-index fields and decrypt the sensitive fields,
but the prisma login response spreads the stored record verbatim: the
password hash, phoneHash and taxIdHash are all present and phone/taxId
stay ciphertext (undecrypted). -/
theorem prisma_login_response_leaks :
    (∀ (dec : String → String) (u : UserDoc),
      (userToJSON dec u).password = none ∧
      (userToJSON dec u).phoneHash = none ∧
      (userToJSON dec u).taxIdHash = none) ∧
    (∀ (dec : String → String) (u : UserDoc),
      (userToJSON dec u).phone = if u.phone != "" then dec u.phone else u.phone) ∧
    (∀ (dec : String → String) (c : CustomerDoc),
      (customerToJSON dec c).phoneHash = none) ∧
    (prismaLoginData leakU).password = some "$2b$10$sekret" ∧
    (prismaLoginData leakU).phoneHash = some "ph123" ∧
    (prismaLoginData leakU).taxIdHash = some "th456" ∧
    (prismaLoginData leakU).phone = "aabb:ccdd" :=
  ⟨fun _ _ => ⟨rfl, rfl, rfl⟩, fun _ _ => rfl, fun _ _ => rfl, rfl, rfl, rfl, rfl⟩

/-- An event whose customer email matches no stored account. -/
def ghostEv : CaktoEvent :=
  { event := "", payment_id := "P9", customer_email := "ghost@x.com"
    amount := 0, status := "pending", paymentMethod := "" }

/-- The one-account prisma state used as concrete webhook input. -/
def puState0 : PrismaState := { users := [aliceT], invoices := [] }

/-- C7 counterexample: the payment-pending webhook endpoint, given an
event whose customer email matches no account, answers 200 success
("Payment pending registered") instead of the explicit error response
the claim requires; the state is unchanged. -/
theorem payment_pending_unknown_email_succeeds :
    caktoPaymentPending ghostEv puState0 =
      (.ok "Payment pending registered", puState0) := by decide

/-- C7 amended: an event whose customer email matches no account
mutates no account record on any of the four webhook endpoints; the
unified and payment-approved handlers reject it with an explicit 404
error (retryable), while the payment-pending and payment-failed
handlers answer 200 success (silently accepted). -/
theorem unknown_email_webhooks (addMonth : Nat → Nat) (now : Nat)
    (ev : CaktoEvent) (st : PrismaState)
    (h : findByEmail ev.customer_email st.users = none) :
    caktoUnified addMonth now ev st = (.err 404 "User not found", st) ∧
    caktoPaymentApproved addMonth now ev st = (.err 404 "User not found", st) ∧
    caktoPaymentPending ev st = (.ok "Payment pending registered", st) ∧
    caktoPaymentFailed ev st = (.ok "Payment failure registered", st) := by
  unfold caktoUnified caktoPaymentApproved caktoPaymentPending caktoPaymentFailed
  rw [h]
  exact ⟨rfl, rfl, rfl, rfl⟩

theorem unknown_email_webhooks_witness :
    caktoUnified (fun t => t + 1000) 0 ghostEv { users := [], invoices := [] } =
      (.err 404 "User not found", { users := [], invoices := [] }) :=
  (unknown_email_webhooks (fun t => t + 1000) 0 ghostEv
    { users := [], invoices := [] } (by decide)).1

/-- A stand-in for Date.setMonth(getMonth() + 1) used in concrete runs:
advances the clock by a fixed month length of 1000. -/
def addMonthW : Nat → Nat := fun t => t + 1000

/-- First delivery of the approved event to the prisma unified handler
at time 100. -/
def puRun1 : WebhookResult × PrismaState := caktoUnified addMonthW 100 approvedEv puState0

/-- Second, identical delivery (same payment_id) at time 200. -/
def puRun2 : WebhookResult × PrismaState := caktoUnified addMonthW 200 approvedEv puRun1.2

/-- First delivery of the approved event to the mongoose handler at
time 100. -/
def moRun1 : WebhookResult × List UserDoc := caktoMongoose 100 approvedMongoEv [aliceT]

/-- Second, identical delivery at time 200. -/
def moRun2 : WebhookResult × List UserDoc := caktoMongoose 200 approvedMongoEv moRun1.2

/-- C2: the prisma unified webhook is not idempotent: redelivering the
same approved event (same payment id PAY1) appends a second invoice row
for the same payment, resets nextBillingAt to the new delivery time
plus one period, and answers plain success rather than a noop. The
mongoose handler does implement the already-ACTIVE noop: its second
delivery reports Already active and changes nothing, leaving exactly
one invoice entry. -/
theorem webhook_redelivery_not_idempotent :
    puRun1.2.invoices.length = 1 ∧
    puRun2.2.invoices.length = 2 ∧
    puRun2.2.invoices.map (fun i => i.url) =
      ["https://pay.cakto.com.br/invoice/PAY1",
       "https://pay.cakto.com.br/invoice/PAY1"] ∧
    puRun1.2.users.map (fun u => u.nextBillingAt) = [some 1100] ∧
    puRun2.2.users.map (fun u => u.nextBillingAt) = [some 1200] ∧
    puRun2.1 = .ok "Webhook processed successfully" ∧
    moRun2.1 = .ok "Already active" ∧
    moRun2.2 = moRun1.2 ∧
    moRun1.2.map (fun u => u.invoices.length) = [1] := by decide

/-- C4: after the prisma unified approved webhook, the account is
ACTIVE with nextBillingAt = delivery time plus one period, and exactly
one invoice row derived from the event was appended — but trialEndsAt
is NOT cleared: it still holds the old trial expiry. The mongoose
handler satisfies the full claim: ACTIVE, trialEndsAt cleared,
nextBillingAt = now + 30 days, one invoice appended. -/
theorem active_without_cleared_trial :
    puRun1.2.users.map (fun u => (u.subscriptionStatus, u.trialEndsAt, u.nextBillingAt)) =
      [("ACTIVE", some 50, some 1100)] ∧
    puRun1.2.invoices.length = 1 ∧
    puRun1.2.invoices.map (fun i => (i.userId, i.date, i.amount, i.status)) =
      [("alice@x.com", 100, 49, "PAID")] ∧
    moRun1.2.map (fun u => (u.subscriptionStatus, u.trialEndsAt, u.nextBillingAt)) =
      [("ACTIVE", none, some (100 + thirtyDaysMs))] ∧
    moRun1.2.map (fun u => u.invoices.map (fun i => (i.id, i.date, i.amount, i.status))) =
      [[("PAY1", 100, 49, "PAID")]] := by decide

end Capi
